import Mathlib

/-!
Shallow embedding of the Prisma v7 SQL driver adapter template
(value mappers, error mapper, transaction state machine) and proofs
of the specification claims about it.

JavaScript runtime values crossing the adapter boundary are modelled by
the inductive type `JSValue`; effectful adapter methods are modelled as
explicit state transformers over `AdapterState`, parameterised by the
outcome the native driver reports for the single statement each of
them issues.
-/

set_option maxRecDepth 4096

/-- Model of the JavaScript values the adapter marshals: primitives,
arbitrary-precision integers (bigint), byte buffers, dates (epoch
milliseconds) and compound JSON objects/arrays.  JS numbers are
modelled as rationals, with NaN as a separate constructor. -/
inductive JSValue where
  | vNull
  | vUndefined
  | vBool (b : Bool)
  | vNumber (q : Rat)
  | vNaN
  | vBigInt (n : Int)
  | vString (s : String)
  | vBytes (bs : List Nat)
  | vDate (ms : Int)
  | vObject (fields : List (String × JSValue))
  | vArray (elems : List JSValue)

/-- Scalar kinds of `ArgType` (type hints for bound arguments). -/
inductive ArgScalarType where
  | string | int | bigint | float | decimal | boolean | enum
  | uuid | json | datetime | bytes | unknown
deriving DecidableEq

/-- Arity of a bound argument. -/
inductive Arity where
  | scalar | list
deriving DecidableEq

/-- Type hint for one bound argument (`ArgType` in the source). -/
structure ArgType where
  scalarType : ArgScalarType
  dbType : Option String := none
  arity : Arity := .scalar
deriving DecidableEq

/-- Default used for `query.argTypes[i] ?? { scalarType: "unknown", arity: "scalar" }`. -/
def defaultArgType : ArgType := { scalarType := .unknown, arity := .scalar }

/-! ### Models of the JavaScript built-ins used by the value mappers -/

/-- Drop leading JS whitespace characters. -/
def skipWsChars : List Char → List Char
  | c :: cs => if c = ' ' ∨ c = '\t' ∨ c = '\n' ∨ c = '\r' then skipWsChars cs else c :: cs
  | [] => []

/-- Numeric value of a list of decimal digit characters. -/
def digitsToNat (ds : List Char) : Nat :=
  ds.foldl (fun acc c => acc * 10 + (c.toNat - '0'.toNat)) 0

/-- Model of `Number.parseInt(s, 10)`: skip leading whitespace, optional
sign, then the longest prefix of decimal digits; no digits means NaN
(`none`). -/
def parseIntChars (cs : List Char) : Option Int :=
  let cs1 := skipWsChars cs
  let signAndRest : Int × List Char :=
    match cs1 with
    | '-' :: rest => (-1, rest)
    | '+' :: rest => (1, rest)
    | _ => (1, cs1)
  let ds := signAndRest.2.takeWhile Char.isDigit
  if ds.isEmpty then none else some (signAndRest.1 * (digitsToNat ds : Int))

/-- Render an optional rational as a JS number value (`none` is NaN). -/
def jsNumOpt : Option Rat → JSValue
  | some q => .vNumber q
  | none => .vNaN

/-- Result of `Number.parseInt(s, 10)` as a JS value. -/
def parseIntJS (s : String) : JSValue :=
  jsNumOpt ((parseIntChars s.data).map (fun n => (n : Rat)))

/-- Parse the longest digit prefix together with the remaining input. -/
def splitDigits (cs : List Char) : List Char × List Char :=
  (cs.takeWhile Char.isDigit, cs.dropWhile Char.isDigit)

/-- Model of `Number.parseFloat(s)` on finite decimal literals: skip
leading whitespace, optional sign, digits, optional fraction, optional
exponent (the exponent is only applied when its digits are present,
matching how parseFloat stops at the first invalid character).  Inputs
with no leading numeric literal give NaN (`none`). -/
def parseFloatChars (cs : List Char) : Option Rat :=
  let cs1 := skipWsChars cs
  let signAndRest : Rat × List Char :=
    match cs1 with
    | '-' :: rest => (-1, rest)
    | '+' :: rest => (1, rest)
    | _ => (1, cs1)
  let ip := splitDigits signAndRest.2
  let fp : List Char × List Char :=
    match ip.2 with
    | '.' :: rest => splitDigits rest
    | _ => ([], ip.2)
  if ip.1.isEmpty ∧ fp.1.isEmpty then none
  else
    let mantissa : Rat :=
      (digitsToNat ip.1 : Rat) + (digitsToNat fp.1 : Rat) / ((10 : Rat) ^ fp.1.length)
    let expPart : Int :=
      match fp.2 with
      | 'e' :: rest | 'E' :: rest =>
        match rest with
        | '-' :: rest2 =>
          let ds := rest2.takeWhile Char.isDigit
          if ds.isEmpty then 0 else -(digitsToNat ds : Int)
        | '+' :: rest2 =>
          let ds := rest2.takeWhile Char.isDigit
          if ds.isEmpty then 0 else (digitsToNat ds : Int)
        | _ =>
          let ds := rest.takeWhile Char.isDigit
          if ds.isEmpty then 0 else (digitsToNat ds : Int)
      | _ => 0
    some (signAndRest.1 * mantissa * (10 : Rat) ^ expPart)

/-- Result of `Number.parseFloat(s)` as a JS value. -/
def parseFloatJS (s : String) : JSValue :=
  jsNumOpt (parseFloatChars s.data)

/-- Drop trailing JS whitespace characters. -/
def trimEndChars (cs : List Char) : List Char :=
  (skipWsChars cs.reverse).reverse

/-- Model of `BigInt(s)` on decimal strings: whitespace is trimmed, the
empty string is 0, an optional sign is followed by digits which must
make up the whole remaining input; anything else throws (`none`). -/
def bigIntOfString (s : String) : Option Int :=
  let cs := trimEndChars (skipWsChars s.data)
  match cs with
  | [] => some 0
  | _ =>
    let signAndRest : Int × List Char :=
      match cs with
      | '-' :: rest => (-1, rest)
      | '+' :: rest => (1, rest)
      | _ => (1, cs)
    if signAndRest.2.isEmpty ∨ ¬ signAndRest.2.all Char.isDigit then none
    else some (signAndRest.1 * (digitsToNat signAndRest.2 : Int))

/-- Base64 alphabet value of a character (standard plus URL-safe);
characters outside the alphabet (including padding) are skipped,
matching the forgiving Node.js decoder. -/
def b64Val (c : Char) : Option Nat :=
  if 'A' ≤ c ∧ c ≤ 'Z' then some (c.toNat - 'A'.toNat)
  else if 'a' ≤ c ∧ c ≤ 'z' then some (c.toNat - 'a'.toNat + 26)
  else if '0' ≤ c ∧ c ≤ '9' then some (c.toNat - '0'.toNat + 52)
  else if c = '+' ∨ c = '-' then some 62
  else if c = '/' ∨ c = '_' then some 63
  else none

/-- Accumulate 6-bit groups into bytes. -/
def b64Assemble : List Nat → Nat → Nat → List Nat
  | [], _, _ => []
  | v :: vs, acc, nbits =>
    let acc1 := acc * 64 + v
    let nbits1 := nbits + 6
    if 8 ≤ nbits1 then
      (acc1 / 2 ^ (nbits1 - 8)) % 256 :: b64Assemble vs (acc1 % 2 ^ (nbits1 - 8)) (nbits1 - 8)
    else
      b64Assemble vs acc1 nbits1

/-- Model of `Buffer.from(s, "base64")`. -/
def base64Decode (s : String) : List Nat :=
  b64Assemble (s.data.filterMap b64Val) 0 0

/-! ### Argument mapping (inbound, runtime to driver)

`mapArg` from the source.  The boolean branch in the source is guarded
by the target engine (commented as SQLite in the template); that guard
is the `sqliteBools` parameter.  `none` models a thrown JS conversion
error (`BigInt` on a non-numeric string). -/

/-- Source function `mapArg(arg, argType)`, as a partial function
(`none` models the exception thrown by `BigInt` on bad input). -/
def mapArg (sqliteBools : Bool) (arg : JSValue) (argType : ArgType) : Option JSValue :=
  match arg with
  | .vNull | .vUndefined => some .vNull
  | .vString s =>
    match argType.scalarType with
    | .int => some (parseIntJS s)
    | .float => some (parseFloatJS s)
    | .bigint => (bigIntOfString s).map JSValue.vBigInt
    | .bytes => some (.vBytes (base64Decode s))
    | _ => some (.vString s)
  | .vBool b => if sqliteBools then some (.vNumber (if b then 1 else 0)) else some (.vBool b)
  | v => some v

/-! ### Column type codes (`ColumnTypeEnum` in the source) -/

namespace ColumnTypeEnum

def Int32 : Nat := 0
def Int64 : Nat := 1
def Float : Nat := 2
def Double : Nat := 3
def Numeric : Nat := 4
def Boolean : Nat := 5
def Character : Nat := 6
def Text : Nat := 7
def Date : Nat := 8
def Time : Nat := 9
def DateTime : Nat := 10
def Json : Nat := 11
def Enum : Nat := 12
def Bytes : Nat := 13
def SetCode : Nat := 14
def Uuid : Nat := 15
def Int32Array : Nat := 64
def Int64Array : Nat := 65
def FloatArray : Nat := 66
def DoubleArray : Nat := 67
def NumericArray : Nat := 68
def BooleanArray : Nat := 69
def CharacterArray : Nat := 70
def TextArray : Nat := 71
def DateArray : Nat := 72
def TimeArray : Nat := 73
def DateTimeArray : Nat := 74
def JsonArray : Nat := 75
def EnumArray : Nat := 76
def BytesArray : Nat := 77
def UuidArray : Nat := 78
def UnknownNumber : Nat := 128

end ColumnTypeEnum

/-! ### Date formatting (model of `Date.prototype.toISOString`) -/

/-- Left-pad the decimal form of a number with zeros to a width. -/
def padNum (width n : Nat) : String :=
  let s := toString n
  String.mk (List.replicate (width - s.length) '0') ++ s

/-- Convert days since the Unix epoch to a proleptic Gregorian civil
date (year, month, day). -/
def civilFromDays (z0 : Int) : Int × Nat × Nat :=
  let z := z0 + 719468
  let era := Int.ediv z 146097
  let doe := (Int.emod z 146097).toNat
  let yoe := (doe - doe / 1460 + doe / 36524 - doe / 146096) / 365
  let doy := doe - (365 * yoe + yoe / 4 - yoe / 100)
  let mp := (5 * doy + 2) / 153
  let d := doy - (153 * mp + 2) / 5 + 1
  let m := if mp < 10 then mp + 3 else mp - 9
  let y := era * 400 + (yoe : Int) + (if m ≤ 2 then 1 else 0)
  (y, m, d)

/-- Format a year, using the expanded six-digit signed form outside
0..9999 as `toISOString` does. -/
def isoYear (y : Int) : String :=
  if 0 ≤ y ∧ y ≤ 9999 then padNum 4 y.toNat
  else if y < 0 then "-" ++ padNum 6 (-y).toNat
  else "+" ++ padNum 6 y.toNat

/-- Model of `Date.prototype.toISOString` on a date given as
milliseconds since the Unix epoch (UTC). -/
def isoOfMs (ms : Int) : String :=
  let secs := Int.ediv ms 1000
  let msec := (Int.emod ms 1000).toNat
  let days := Int.ediv secs 86400
  let sod := (Int.emod secs 86400).toNat
  let ymd := civilFromDays days
  isoYear ymd.1 ++ "-" ++ padNum 2 ymd.2.1 ++ "-" ++ padNum 2 ymd.2.2 ++
    "T" ++ padNum 2 (sod / 3600) ++ ":" ++ padNum 2 (sod % 3600 / 60) ++
    ":" ++ padNum 2 (sod % 60) ++ "." ++ padNum 3 msec ++ "Z"

/-! ### JSON serialization (model of `JSON.stringify`) -/

/-- Lowercase hexadecimal digit. -/
def hexDigit (n : Nat) : Char :=
  if n < 10 then Char.ofNat ('0'.toNat + n) else Char.ofNat ('a'.toNat + n - 10)

/-- Escape one character of a JSON string literal. -/
def jsonEscapeChar (c : Char) : String :=
  if c = '"' then "\\\""
  else if c = '\\' then "\\\\"
  else if c = '\n' then "\\n"
  else if c = '\t' then "\\t"
  else if c = '\r' then "\\r"
  else if c = '\x08' then "\\b"
  else if c = '\x0c' then "\\f"
  else if c.toNat < 32 then
    "\\u00" ++ String.mk [hexDigit (c.toNat / 16), hexDigit (c.toNat % 16)]
  else String.singleton c

/-- JSON string literal for a string. -/
def jsonQuote (s : String) : String :=
  "\"" ++ String.join (s.data.map jsonEscapeChar) ++ "\""

/-- Decimal digits of the fractional part of `rem / den`, truncated to
the given number of digits (stops early once the remainder is zero). -/
def fracDigits : Nat → Nat → Nat → List Char
  | _, _, 0 => []
  | rem, den, fuel + 1 =>
    if rem = 0 then []
    else
      Char.ofNat ('0'.toNat + rem * 10 / den) :: fracDigits (rem * 10 % den) den fuel

/-- Decimal rendering of a JS number: integers print exactly, other
rationals print sign, integer part and a truncated fractional
expansion (a model of the shortest-roundtrip float printing). -/
def jsonNum (q : Rat) : String :=
  if q.den = 1 then toString q.num
  else
    let sign := if q < 0 then "-" else ""
    let num := q.num.natAbs
    sign ++ toString (num / q.den) ++ "." ++ String.mk (fracDigits (num % q.den) q.den 17)

mutual

/-- Model of `JSON.stringify` (on values reachable from a JSON column:
bigints, which make the real function throw, are rendered as their
decimal text; that branch is unreachable from `mapRow`, which returns
bigints before consulting the column type).  Dates serialize through
`toJSON`, i.e. their ISO text; undefined fields are omitted and
undefined array elements render as null. -/
def jsonStr : JSValue → String
  | .vNull => "null"
  | .vUndefined => "null"
  | .vBool b => if b then "true" else "false"
  | .vNumber q => jsonNum q
  | .vNaN => "null"
  | .vBigInt n => toString n
  | .vString s => jsonQuote s
  | .vBytes bs =>
    "\x7b\"type\":\"Buffer\",\"data\":[" ++
      String.intercalate "," (bs.map (fun b => toString b)) ++ "]\x7d"
  | .vDate ms => jsonQuote (isoOfMs ms)
  | .vObject fs => "\x7b" ++ String.intercalate "," (jsonFields fs) ++ "\x7d"
  | .vArray es => "[" ++ String.intercalate "," (jsonElems es) ++ "]"

/-- Serialized `"key":value` members of an object, skipping undefined. -/
def jsonFields : List (String × JSValue) → List String
  | [] => []
  | (k, v) :: rest =>
    match v with
    | .vUndefined => jsonFields rest
    | v => (jsonQuote k ++ ":" ++ jsonStr v) :: jsonFields rest

/-- Serialized elements of an array. -/
def jsonElems : List JSValue → List String
  | [] => []
  | v :: rest => jsonStr v :: jsonElems rest

end

/-! ### Row mapping (outbound, driver to runtime) -/

/-- Result of the JS `typeof value === "object"` test. -/
def jsTypeofObject : JSValue → Bool
  | .vNull | .vBytes _ | .vDate _ | .vObject _ | .vArray _ => true
  | _ => false

/-- Body of the `mapRow` loop from the source for one value paired with
the column type at its index (`none` when `columnTypes[i]` is
undefined).  Follows the source order: `row[i] ?? null`, then the null,
bigint, Date and JSON-column checks, otherwise pass-through. -/
def mapRowValue (v : JSValue) (colType : Option Nat) : JSValue :=
  let value : JSValue := match v with
    | .vUndefined => .vNull
    | x => x
  match value with
  | .vNull => .vNull
  | .vBigInt n => .vString (toString n)
  | .vDate ms => .vString (isoOfMs ms)
  | x =>
    if colType == some ColumnTypeEnum.Json && jsTypeofObject x then .vString (jsonStr x)
    else x

/-- Source function `mapRow(row, columnTypes)`. -/
def mapRow (row : List JSValue) (columnTypes : List Nat) : List JSValue :=
  (List.range row.length).map fun i => mapRowValue (row.getD i .vNull) columnTypes[i]?

/-! ### Error mapping (`convertDriverError` in the source) -/

/-- Shape of a native driver failure as the error mapper inspects it:
whether it is an `Error` instance, its `name`, optional string `code`,
optional numeric `errno` and `message`. -/
structure NativeError where
  isError : Bool
  name : String := "Error"
  code : Option String := none
  errno : Option Int := none
  message : String := ""
deriving DecidableEq

/-- Closed taxonomy of mapped failures (`MappedError` variants used by
the source, plus the isolation-level validation error raised by
`startTransaction`). -/
inductive MappedError where
  | UniqueConstraintViolation
  | NullConstraintViolation
  | ForeignKeyConstraintViolation
  | TableDoesNotExist
  | InvalidIsolationLevel (level : String)
  | sqlite (extendedCode : Int) (message : String)
  | postgres (code : String) (severity : String) (message : String)
  | GenericJs (id : Nat)
deriving DecidableEq

/-- JS truthiness of the optional `code` field (absent and the empty
string are falsy). -/
def codeTruthy : Option String → Bool
  | some c => decide (c ≠ "")
  | none => false

/-- Source function `convertDriverError(error)`. -/
def convertDriverError (e : NativeError) : MappedError :=
  if e.isError then
    if e.code = some "23505" then .UniqueConstraintViolation
    else if e.code = some "23502" then .NullConstraintViolation
    else if e.code = some "23503" then .ForeignKeyConstraintViolation
    else if e.code = some "42P01" then .TableDoesNotExist
    else if e.name = "SQLiteError" then .sqlite (e.errno.getD 1) e.message
    else if codeTruthy e.code then .postgres (e.code.getD "") "ERROR" e.message
    else .GenericJs 0
  else .GenericJs 0

/-- The engine lookup table implicit in the if-chain of
`convertDriverError`: native code to named error kind. -/
def pgErrorTable : List (String × MappedError) :=
  [("23505", .UniqueConstraintViolation),
   ("23502", .NullConstraintViolation),
   ("23503", .ForeignKeyConstraintViolation),
   ("42P01", .TableDoesNotExist)]

/-! ### Transaction and adapter state machine -/

/-- Transaction options (`{ usePhantomQuery: boolean }`). -/
structure TransactionOptions where
  usePhantomQuery : Bool
deriving DecidableEq

/-- A `MyTransaction` instance as observable data: its read-only
options.  Its release capability is the `releaseHook` state transformer
below, exactly the closure `() => { this.#transactionDepth -= 1 }`
handed over by `startTransaction`. -/
structure MyTransaction where
  options : TransactionOptions
deriving DecidableEq

/-- Observable state of one `MyAdapter` and its native connection: the
transaction depth counter, the ordered log of every SQL statement the
adapter passed to `client.query`, and whether `client.close()` has been
called. -/
structure AdapterState where
  transactionDepth : Int
  clientLog : List String
  clientClosed : Bool
deriving DecidableEq

/-- State of a freshly constructed adapter. -/
def initialAdapterState : AdapterState :=
  { transactionDepth := 0, clientLog := [], clientClosed := false }

/-- The release callback `() => { this.#transactionDepth -= 1 }`. -/
def releaseHook (s : AdapterState) : AdapterState :=
  { s with transactionDepth := s.transactionDepth - 1 }

/-- Source method `MyTransaction.commit`: invokes the release callback
and resolves; issues no SQL. -/
def MyTransaction.commit (_tx : MyTransaction) (s : AdapterState) : AdapterState :=
  releaseHook s

/-- Source method `MyTransaction.rollback`: invokes the release
callback and resolves; issues no SQL. -/
def MyTransaction.rollback (_tx : MyTransaction) (s : AdapterState) : AdapterState :=
  releaseHook s

/-- The isolation-level allow-list built in `startTransaction`. -/
def validLevels : List String :=
  ["READ UNCOMMITTED", "READ COMMITTED", "REPEATABLE READ", "SERIALIZABLE"]

/-- Validity of an optional isolation level: absent is valid, present
must be in the allow-list. -/
def isoOk : Option String → Bool
  | none => true
  | some l => validLevels.contains l

/-- The single statement `startTransaction` issues at a given new
depth: `BEGIN` (with an isolation clause when a truthy level was
supplied) at depth 1, `SAVEPOINT sp_<depth>` when nested. -/
def txStmtSql (isolationLevel : Option String) (depth : Int) : String :=
  if depth = 1 then
    match isolationLevel with
    | some l => if l ≠ "" then "BEGIN ISOLATION LEVEL " ++ l else "BEGIN"
    | none => "BEGIN"
  else "SAVEPOINT sp_" ++ toString depth

/-- Body of `startTransaction` after isolation validation: increment
depth, issue the BEGIN or SAVEPOINT statement, roll the depth back on
native failure, otherwise hand out the transaction with
`{ usePhantomQuery: false }` and the release callback. -/
def startTransactionBody (isolationLevel : Option String) (nativeFail : Option NativeError)
    (s : AdapterState) : AdapterState × Except MappedError MyTransaction :=
  let depth := s.transactionDepth + 1
  let s1 : AdapterState :=
    { s with transactionDepth := depth, clientLog := s.clientLog ++ [txStmtSql isolationLevel depth] }
  match nativeFail with
  | some e => ({ s1 with transactionDepth := s1.transactionDepth - 1 }, .error (convertDriverError e))
  | none => (s1, .ok { options := { usePhantomQuery := false } })

/-- Source method `MyAdapter.startTransaction`, parameterised by the
outcome the native driver reports for the BEGIN/SAVEPOINT statement
(`none` means the statement succeeds, `some e` that it fails with
native error `e`, in which case the catch block restores the depth and
`onError` surfaces the mapped error). -/
def startTransaction (isolationLevel : Option String) (nativeFail : Option NativeError)
    (s : AdapterState) : AdapterState × Except MappedError MyTransaction :=
  match isolationLevel with
  | some l =>
    if validLevels.contains l then startTransactionBody isolationLevel nativeFail s
    else (s, .error (.InvalidIsolationLevel l))
  | none => startTransactionBody isolationLevel nativeFail s

/-- Source method `MyAdapter.dispose`: closes the native connection
(and does nothing else — in particular it sets no adapter-side flag
that later operations could check). -/
def dispose (s : AdapterState) : AdapterState :=
  { s with clientClosed := true }

/-! ### Queryable operations -/

/-- One parameterized statement (`SqlQuery` in the source). -/
structure SqlQuery where
  sql : String
  args : List JSValue
  argTypes : List ArgType

/-- What the native driver hands back for a successful read: column
metadata and raw rows, before outbound row mapping. -/
structure NativeResult where
  columnNames : List String
  columnTypes : List Nat
  rows : List (List JSValue)

/-- Result of a read after mapping (`SqlResultSet` in the source). -/
structure SqlResultSet where
  columnNames : List String
  columnTypes : List Nat
  rows : List (List JSValue)

/-- The argument-mapping loop
`query.args.map((arg, i) => mapArg(arg, query.argTypes[i] ?? default))`;
`none` models a thrown conversion error. -/
def mapArgsList (sqliteBools : Bool) : List JSValue → List ArgType → Option (List JSValue)
  | [], _ => some []
  | a :: as, t :: ts => do
    let m ← mapArg sqliteBools a t
    let rest ← mapArgsList sqliteBools as ts
    pure (m :: rest)
  | a :: as, [] => do
    let m ← mapArg sqliteBools a defaultArgType
    let rest ← mapArgsList sqliteBools as []
    pure (m :: rest)

/-- Source method `MyQueryable.executeRaw`, parameterised by the native
outcome for the issued statement: the affected-row count the driver
reports (absent means `?? 0`) or a native error.  A thrown argument
conversion is intercepted by `onError` before any statement reaches the
connection; the thrown JS error carries no code, so it maps to the
generic fallback. -/
def executeRaw (sqliteBools : Bool) (q : SqlQuery)
    (native : Except NativeError (Option Int)) (s : AdapterState) :
    AdapterState × Except MappedError Int :=
  match mapArgsList sqliteBools q.args q.argTypes with
  | none => (s, .error (.GenericJs 0))
  | some _ =>
    let s1 : AdapterState := { s with clientLog := s.clientLog ++ [q.sql] }
    match native with
    | .error e => (s1, .error (convertDriverError e))
    | .ok n => (s1, .ok (n.getD 0))

/-- Source method `MyQueryable.queryRaw`, parameterised by the native
outcome: on success, column metadata is taken from the driver result
and every row is passed through `mapRow`. -/
def queryRaw (sqliteBools : Bool) (q : SqlQuery)
    (native : Except NativeError NativeResult) (s : AdapterState) :
    AdapterState × Except MappedError SqlResultSet :=
  match mapArgsList sqliteBools q.args q.argTypes with
  | none => (s, .error (.GenericJs 0))
  | some _ =>
    let s1 : AdapterState := { s with clientLog := s.clientLog ++ [q.sql] }
    match native with
    | .error e => (s1, .error (convertDriverError e))
    | .ok r =>
      (s1, .ok { columnNames := r.columnNames, columnTypes := r.columnTypes,
                 rows := r.rows.map (fun row => mapRow row r.columnTypes) })

/-! ### Sequencing helpers for the depth invariant -/

/-- Run a sequence of successful `startTransaction` calls, one per
listed isolation level, threading the adapter state. -/
def startSeq : List (Option String) → AdapterState → AdapterState
  | [], s => s
  | iso :: rest, s => startSeq rest (startTransaction iso none s).1

/-- The statements a successful run of `startSeq` appends when started
at a given depth. -/
def expectedTxLog : List (Option String) → Int → List String
  | [], _ => []
  | iso :: rest, d => txStmtSql iso (d + 1) :: expectedTxLog rest (d + 1)

/-- Run a LIFO sequence of terminal lifecycle calls: each pair is a
transaction instance and the choice of `commit` (true) or `rollback`
(false). -/
def runTerminals (terminals : List (MyTransaction × Bool)) (s : AdapterState) : AdapterState :=
  terminals.foldl (fun st p => if p.2 then p.1.commit st else p.1.rollback st) s

/-! ### Statement classifiers and case classifiers used by the claims -/

/-- Recognize a BEGIN statement as issued by `startTransaction`: plain
`BEGIN` or `BEGIN ISOLATION LEVEL <allowed level>`. -/
def isBeginStmtB (t : String) : Bool :=
  (t == "BEGIN") || validLevels.any (fun l => t == "BEGIN ISOLATION LEVEL " ++ l)

/-- Recognize a SAVEPOINT statement as issued by `startTransaction`. -/
def isSavepointStmtB (t : String) : Bool :=
  "SAVEPOINT sp_".data.isPrefixOf t.data

/-- The savepoint statements `SAVEPOINT sp_base .. sp_(base+n-1)`. -/
def savepointStmts (n : Nat) (base : Int) : List String :=
  (List.range n).map fun (i : Nat) => "SAVEPOINT sp_" ++ toString (base + (i : Int))

/-- Compound values (plain objects, arrays, byte buffers): the values a
JSON column can hold that the JS object test classifies as objects and
that reach the JSON branch of `mapRow`. -/
def isCompound : JSValue → Bool
  | .vObject _ | .vArray _ | .vBytes _ => true
  | _ => false

/-- Values and column types that fall through every special case of the
`mapRow` loop and are pushed unchanged. -/
def isPassthroughCase (v : JSValue) (t : Option Nat) : Bool :=
  match v with
  | .vNull | .vUndefined | .vBigInt _ | .vDate _ => false
  | x => !(t == some ColumnTypeEnum.Json && jsTypeofObject x)

/-! ### Helper lemmas -/

theorem string_head_ne {a b : String} (c1 c2 : Char) (h1 : a.data.head? = some c1)
    (h2 : b.data.head? = some c2) (hne : c1 ≠ c2) : a ≠ b := by
  intro h
  subst h
  rw [h1] at h2
  exact hne (Option.some.inj h2)

theorem head?_of_append (a x : String) (c : Char) (h : a.data.head? = some c) :
    (a ++ x).data.head? = some c := by
  rw [String.data_append]
  cases ha : a.data with
  | nil => rw [ha] at h; simp at h
  | cons hd tl =>
    rw [ha] at h
    simpa using h

theorem savepoint_ne_begin (x : String) : ("SAVEPOINT sp_" ++ x) ≠ "BEGIN" := by
  have h1 : ("SAVEPOINT sp_" ++ x).data.head? = some 'S' :=
    head?_of_append _ _ _ (by decide)
  exact string_head_ne 'S' 'B' h1 (by decide) (by decide)

theorem savepoint_ne_begin_iso (x l : String) :
    ("SAVEPOINT sp_" ++ x) ≠ "BEGIN ISOLATION LEVEL " ++ l := by
  have h1 : ("SAVEPOINT sp_" ++ x).data.head? = some 'S' :=
    head?_of_append _ _ _ (by decide)
  have h2 : ("BEGIN ISOLATION LEVEL " ++ l).data.head? = some 'B' :=
    head?_of_append _ _ _ (by decide)
  exact string_head_ne 'S' 'B' h1 h2 (by decide)

theorem isBeginStmtB_savepoint (x : String) : isBeginStmtB ("SAVEPOINT sp_" ++ x) = false := by
  unfold isBeginStmtB
  rw [Bool.or_eq_false_iff]
  constructor
  · exact beq_eq_false_iff_ne.mpr (savepoint_ne_begin x)
  · rw [List.any_eq_false]
    intro l _
    simp only [Bool.not_eq_true]
    exact beq_eq_false_iff_ne.mpr (savepoint_ne_begin_iso x l)

theorem isSavepointStmtB_savepoint (x : String) :
    isSavepointStmtB ("SAVEPOINT sp_" ++ x) = true := by
  unfold isSavepointStmtB
  rw [String.data_append, List.isPrefixOf_iff_prefix]
  exact List.prefix_append _ _

theorem isBeginStmtB_txStmt1 (iso : Option String) (h : isoOk iso = true) :
    isBeginStmtB (txStmtSql iso 1) = true := by
  cases iso with
  | none => decide
  | some l =>
    have h2 : l = "READ UNCOMMITTED" ∨ l = "READ COMMITTED" ∨
        l = "REPEATABLE READ" ∨ l = "SERIALIZABLE" := by
      simpa [isoOk, validLevels] using h
    rcases h2 with h2 | h2 | h2 | h2 <;> subst h2 <;> decide

theorem isSavepointStmtB_txStmt1 (iso : Option String) (h : isoOk iso = true) :
    isSavepointStmtB (txStmtSql iso 1) = false := by
  cases iso with
  | none => decide
  | some l =>
    have h2 : l = "READ UNCOMMITTED" ∨ l = "READ COMMITTED" ∨
        l = "REPEATABLE READ" ∨ l = "SERIALIZABLE" := by
      simpa [isoOk, validLevels] using h
    rcases h2 with h2 | h2 | h2 | h2 <;> subst h2 <;> decide

theorem mem_savepointStmts {t : String} {n : Nat} {base : Int}
    (h : t ∈ savepointStmts n base) : ∃ x, t = "SAVEPOINT sp_" ++ x := by
  unfold savepointStmts at h
  rw [List.mem_map] at h
  obtain ⟨i, _, hi⟩ := h
  exact ⟨toString (base + (i : Int)), hi.symm⟩

theorem savepointStmts_countP_begin (n : Nat) (base : Int) :
    (savepointStmts n base).countP isBeginStmtB = 0 := by
  rw [List.countP_eq_zero]
  intro t ht
  obtain ⟨x, rfl⟩ := mem_savepointStmts ht
  simp [isBeginStmtB_savepoint]

theorem savepointStmts_length (n : Nat) (base : Int) :
    (savepointStmts n base).length = n := by
  unfold savepointStmts
  rw [List.length_map, List.length_range]

theorem savepointStmts_countP_savepoint (n : Nat) (base : Int) :
    (savepointStmts n base).countP isSavepointStmtB = n := by
  have h2 : (savepointStmts n base).countP isSavepointStmtB = (savepointStmts n base).length :=
    List.countP_eq_length.mpr (fun t ht => by
      obtain ⟨x, rfl⟩ := mem_savepointStmts ht
      exact isSavepointStmtB_savepoint x)
  rw [h2, savepointStmts_length]

theorem startTransaction_ok_state (iso : Option String) (s : AdapterState)
    (h : isoOk iso = true) :
    (startTransaction iso none s).1 =
      { s with transactionDepth := s.transactionDepth + 1,
               clientLog := s.clientLog ++ [txStmtSql iso (s.transactionDepth + 1)] } := by
  cases iso with
  | none => rfl
  | some l =>
    have h2 : validLevels.contains l = true := h
    simp only [startTransaction, h2, if_true, startTransactionBody]

theorem startSeq_eq (isos : List (Option String)) (s : AdapterState)
    (h : ∀ iso ∈ isos, isoOk iso = true) :
    startSeq isos s =
      { s with transactionDepth := s.transactionDepth + (isos.length : Int),
               clientLog := s.clientLog ++ expectedTxLog isos s.transactionDepth } := by
  induction isos generalizing s with
  | nil =>
    simp only [startSeq, expectedTxLog, List.length_nil, Nat.cast_zero, add_zero,
      List.append_nil]
  | cons iso rest ih =>
    rw [startSeq, startTransaction_ok_state iso s (h iso (List.mem_cons_self _ _)),
      ih _ (fun i hi => h i (List.mem_cons_of_mem _ hi))]
    simp only [expectedTxLog, List.length_cons, AdapterState.mk.injEq]
    refine ⟨?_, ?_, trivial⟩
    · push_cast
      ring_nf
    · rw [List.append_assoc]
      rfl

theorem expectedTxLog_savepoints (isos : List (Option String)) (d : Int) (hd : 1 ≤ d) :
    expectedTxLog isos d = savepointStmts isos.length (d + 1) := by
  induction isos generalizing d with
  | nil => rfl
  | cons iso rest ih =>
    rw [expectedTxLog, ih (d + 1) (by omega)]
    unfold savepointStmts
    rw [List.length_cons, List.range_succ_eq_map, List.map_cons, List.map_map]
    congr 1
    · rw [txStmtSql.eq_def, if_neg (by omega : ¬(d + 1 = 1))]
      congr 1
      push_cast
      ring_nf
    · apply List.map_congr_left
      intro a _
      simp only [Function.comp]
      congr 1
      push_cast
      ring_nf

theorem runTerminals_cons (p : MyTransaction × Bool) (rest : List (MyTransaction × Bool))
    (s : AdapterState) : runTerminals (p :: rest) s = runTerminals rest (releaseHook s) := by
  unfold runTerminals
  rw [List.foldl_cons]
  cases hp : p.2 <;> simp [hp, MyTransaction.commit, MyTransaction.rollback]

theorem runTerminals_log (terminals : List (MyTransaction × Bool)) (s : AdapterState) :
    (runTerminals terminals s).clientLog = s.clientLog := by
  induction terminals generalizing s with
  | nil => rfl
  | cons p rest ih =>
    rw [runTerminals_cons, ih]
    rfl

theorem runTerminals_depth (terminals : List (MyTransaction × Bool)) (s : AdapterState) :
    (runTerminals terminals s).transactionDepth =
      s.transactionDepth - (terminals.length : Int) := by
  induction terminals generalizing s with
  | nil => simp [runTerminals]
  | cons p rest ih =>
    rw [runTerminals_cons, ih, List.length_cons]
    unfold releaseHook
    push_cast
    ring_nf

/-! ### Claim theorems -/

/-- C1: For every Transaction, `commit()` and `rollback()` never issue
any SQL statement to the native connection (the client log is
unchanged, so in particular no COMMIT, ROLLBACK or RELEASE SAVEPOINT is
emitted, and the connection is not closed); each hook only invokes the
release callback (which decrements the depth) and resolves. -/
theorem commit_rollback_no_sql (tx : MyTransaction) (s : AdapterState) :
    tx.commit s = releaseHook s ∧ tx.rollback s = releaseHook s ∧
    (tx.commit s).clientLog = s.clientLog ∧ (tx.rollback s).clientLog = s.clientLog ∧
    (tx.commit s).clientClosed = s.clientClosed ∧
    (tx.rollback s).clientClosed = s.clientClosed ∧
    (tx.commit s).transactionDepth = s.transactionDepth - 1 ∧
    (tx.rollback s).transactionDepth = s.transactionDepth - 1 :=
  ⟨rfl, rfl, rfl, rfl, rfl, rfl, rfl, rfl⟩

/-- C9: The release capability is not one-shot: every `commit()` or
`rollback()` call unconditionally decrements the depth by exactly one,
with no guard against repeated terminal calls, so k terminal calls on
the same transaction decrement the depth by k — and the depth can go
below zero (two commits from depth 1 reach depth -1). -/
theorem release_unconditional_decrement :
    (∀ (tx : MyTransaction) (s : AdapterState),
        (tx.commit s).transactionDepth = s.transactionDepth - 1) ∧
    (∀ (tx : MyTransaction) (s : AdapterState),
        (tx.rollback s).transactionDepth = s.transactionDepth - 1) ∧
    (∀ (terminals : List (MyTransaction × Bool)) (s : AdapterState),
        (runTerminals terminals s).transactionDepth =
          s.transactionDepth - (terminals.length : Int)) ∧
    (MyTransaction.commit ⟨⟨false⟩⟩ (MyTransaction.commit ⟨⟨false⟩⟩
        { initialAdapterState with transactionDepth := 1 })).transactionDepth = -1 :=
  ⟨fun _ _ => rfl, fun _ _ => rfl, runTerminals_depth, rfl⟩

/-- C10: Every Transaction returned by a successful `startTransaction`
carries options `{ usePhantomQuery: false }`, regardless of the
isolation level supplied and of the current depth. -/
theorem transaction_options_phantom_false (iso : Option String) (fail : Option NativeError)
    (s : AdapterState) (tx : MyTransaction)
    (h : (startTransaction iso fail s).2 = .ok tx) :
    tx.options = { usePhantomQuery := false } := by
  have hbody : ∀ iso2, (startTransactionBody iso2 fail s).2 = .ok tx →
      tx.options = { usePhantomQuery := false } := by
    intro iso2 hb
    cases fail with
    | none =>
      simp only [startTransactionBody] at hb
      exact (Except.ok.inj hb) ▸ rfl
    | some e => simp [startTransactionBody] at hb
  cases iso with
  | none => exact hbody none h
  | some l =>
    simp only [startTransaction] at h
    by_cases hl : validLevels.contains l = true
    · rw [if_pos hl] at h
      exact hbody (some l) h
    · rw [if_neg hl] at h
      simp at h

/-- Witness for C10 at a concrete successful call. -/
theorem transaction_options_phantom_false_witness :
    (startTransaction none none initialAdapterState).2 =
      .ok (⟨⟨false⟩⟩ : MyTransaction) ∧
    (⟨⟨false⟩⟩ : MyTransaction).options = { usePhantomQuery := false } :=
  ⟨rfl, transaction_options_phantom_false none none initialAdapterState ⟨⟨false⟩⟩ rfl⟩

/-- C4: `startTransaction` with an isolation level outside the
allow-list fails with `InvalidIsolationLevel` carrying that level and
returns the state unchanged: the depth is untouched and no SQL reaches
the native connection, whatever the native driver would have done. -/
theorem invalid_isolation_rejected (l : String) (fail : Option NativeError) (s : AdapterState)
    (h : validLevels.contains l = false) :
    startTransaction (some l) fail s = (s, .error (.InvalidIsolationLevel l)) := by
  simp only [startTransaction]
  rw [if_neg (by rw [h]; exact Bool.false_ne_true)]

/-- Witness for C4 at the unsupported level SNAPSHOT. -/
theorem invalid_isolation_rejected_witness :
    validLevels.contains "SNAPSHOT" = false ∧
    startTransaction (some "SNAPSHOT") none initialAdapterState =
      (initialAdapterState, .error (.InvalidIsolationLevel "SNAPSHOT")) :=
  ⟨by decide, invalid_isolation_rejected "SNAPSHOT" none initialAdapterState (by decide)⟩

/-- C3: If the BEGIN or SAVEPOINT statement fails natively, the depth
is decremented back to its value before the call and only then the
mapped error is surfaced; more generally, every failing
`startTransaction` (native failure or isolation rejection) leaves the
depth unchanged. -/
theorem failed_begin_restores_depth :
    (∀ (iso : Option String) (e : NativeError) (s : AdapterState), isoOk iso = true →
        (startTransaction iso (some e) s).1.transactionDepth = s.transactionDepth ∧
        (startTransaction iso (some e) s).2 = .error (convertDriverError e)) ∧
    (∀ (iso : Option String) (fail : Option NativeError) (s : AdapterState)
        (err : MappedError), (startTransaction iso fail s).2 = .error err →
        (startTransaction iso fail s).1.transactionDepth = s.transactionDepth) := by
  have hbody1 : ∀ iso2 e s2, (startTransactionBody iso2 (some e) s2).1.transactionDepth =
      s2.transactionDepth ∧
      (startTransactionBody iso2 (some e) s2).2 = .error (convertDriverError e) := by
    intro iso2 e s2
    refine ⟨?_, rfl⟩
    show s2.transactionDepth + 1 - 1 = s2.transactionDepth
    ring_nf
  constructor
  · intro iso e s hiso
    cases iso with
    | none => exact hbody1 none e s
    | some l =>
      have hl : validLevels.contains l = true := hiso
      simp only [startTransaction]
      rw [if_pos hl]
      exact hbody1 (some l) e s
  · intro iso fail s err herr
    have hbody2 : ∀ iso2, (startTransactionBody iso2 fail s).2 = .error err →
        (startTransactionBody iso2 fail s).1.transactionDepth = s.transactionDepth := by
      intro iso2 hcontra
      cases fail with
      | none => simp [startTransactionBody] at hcontra
      | some e => exact (hbody1 iso2 e s).1
    cases iso with
    | none => exact hbody2 none herr
    | some l =>
      simp only [startTransaction] at herr ⊢
      by_cases hl : validLevels.contains l = true
      · rw [if_pos hl] at herr ⊢
        exact hbody2 (some l) herr
      · rw [if_neg hl]

/-- Witness for C3: a failing BEGIN with a mapped unique-constraint
error restores depth 0 and surfaces the mapped error. -/
theorem failed_begin_restores_depth_witness :
    isoOk none = true ∧
    ((startTransaction none
        (some { isError := true, name := "Error", code := some "23505", errno := none,
                message := "dup" }) initialAdapterState).1.transactionDepth =
      initialAdapterState.transactionDepth ∧
     (startTransaction none
        (some { isError := true, name := "Error", code := some "23505", errno := none,
                message := "dup" }) initialAdapterState).2 =
      .error (convertDriverError
        { isError := true, name := "Error", code := some "23505", errno := none,
          message := "dup" })) :=
  ⟨rfl, failed_begin_restores_depth.1 none
    { isError := true, name := "Error", code := some "23505", errno := none, message := "dup" }
    initialAdapterState rfl⟩

/-- C5 counterexample: the claim that after `dispose()` every
subsequent operation fails with an adapter-closed condition is false —
`executeRaw` on a disposed adapter succeeds and still hands the
statement to the released native connection (the client log grows).
There is no adapter-closed error in the code at all. -/
theorem dispose_guard_counterexample :
    (executeRaw false { sql := "SELECT 1", args := [], argTypes := [] }
        (.ok (some 0)) (dispose initialAdapterState)).2 = .ok 0 ∧
    (executeRaw false { sql := "SELECT 1", args := [], argTypes := [] }
        (.ok (some 0)) (dispose initialAdapterState)).1.clientLog = ["SELECT 1"] ∧
    (dispose initialAdapterState).clientLog = [] :=
  ⟨rfl, rfl, rfl⟩

/-- C5 amended: `dispose()` only closes the native client and installs
no adapter-side guard, so every subsequent operation (`queryRaw`,
`executeRaw`, `startTransaction`) behaves exactly as on an undisposed
adapter — same outcome, same SQL handed to the released native
connection — instead of failing with an adapter-closed condition. -/
theorem dispose_no_guard (flag : Bool) (q : SqlQuery)
    (nq : Except NativeError NativeResult) (nx : Except NativeError (Option Int))
    (iso : Option String) (fail : Option NativeError) (s : AdapterState) :
    ((executeRaw flag q nx (dispose s)).2 = (executeRaw flag q nx s).2 ∧
     (executeRaw flag q nx (dispose s)).1.clientLog = (executeRaw flag q nx s).1.clientLog) ∧
    ((queryRaw flag q nq (dispose s)).2 = (queryRaw flag q nq s).2 ∧
     (queryRaw flag q nq (dispose s)).1.clientLog = (queryRaw flag q nq s).1.clientLog) ∧
    ((startTransaction iso fail (dispose s)).2 = (startTransaction iso fail s).2 ∧
     (startTransaction iso fail (dispose s)).1.clientLog =
       (startTransaction iso fail s).1.clientLog ∧
     (startTransaction iso fail (dispose s)).1.transactionDepth =
       (startTransaction iso fail s).1.transactionDepth) := by
  refine ⟨?_, ?_, ?_⟩
  · unfold executeRaw dispose
    cases mapArgsList flag q.args q.argTypes with
    | none => exact ⟨rfl, rfl⟩
    | some args => cases nx with
      | error e => exact ⟨rfl, rfl⟩
      | ok n => exact ⟨rfl, rfl⟩
  · unfold queryRaw dispose
    cases mapArgsList flag q.args q.argTypes with
    | none => exact ⟨rfl, rfl⟩
    | some args => cases nq with
      | error e => exact ⟨rfl, rfl⟩
      | ok r => exact ⟨rfl, rfl⟩
  · cases iso with
    | none =>
      unfold startTransaction startTransactionBody dispose
      cases fail with
      | none => exact ⟨rfl, rfl, rfl⟩
      | some e => exact ⟨rfl, rfl, rfl⟩
    | some l =>
      simp only [startTransaction]
      by_cases hl : validLevels.contains l = true
      · rw [if_pos hl, if_pos hl]
        unfold startTransactionBody dispose
        cases fail with
        | none => exact ⟨rfl, rfl, rfl⟩
        | some e => exact ⟨rfl, rfl, rfl⟩
      · rw [if_neg hl, if_neg hl]
        exact ⟨rfl, rfl, rfl⟩

/-- Evaluation of the engine lookup table as a nested conditional. -/
theorem pgErrorTable_lookup (c : String) :
    pgErrorTable.lookup c =
      if c = "23505" then some .UniqueConstraintViolation
      else if c = "23502" then some .NullConstraintViolation
      else if c = "23503" then some .ForeignKeyConstraintViolation
      else if c = "42P01" then some .TableDoesNotExist
      else none := by
  simp only [pgErrorTable, List.lookup]
  by_cases h1 : c = "23505"
  · simp [h1]
  by_cases h2 : c = "23502"
  · simp [beq_eq_false_iff_ne.mpr h1, h2]
  by_cases h3 : c = "23503"
  · simp [beq_eq_false_iff_ne.mpr h1, beq_eq_false_iff_ne.mpr h2, h3]
  by_cases h4 : c = "42P01"
  · simp [beq_eq_false_iff_ne.mpr h1, beq_eq_false_iff_ne.mpr h2, beq_eq_false_iff_ne.mpr h3, h4]
  simp [beq_eq_false_iff_ne.mpr h1, beq_eq_false_iff_ne.mpr h2, beq_eq_false_iff_ne.mpr h3,
    beq_eq_false_iff_ne.mpr h4, h1, h2, h3, h4]


/-- Evaluation of the error mapper on an Error instance carrying a
code, as a nested conditional over the source branch order. -/
theorem convertDriverError_eval (e : NativeError) (c : String) (hE : e.isError = true)
    (hc : e.code = some c) :
    convertDriverError e =
      if c = "23505" then .UniqueConstraintViolation
      else if c = "23502" then .NullConstraintViolation
      else if c = "23503" then .ForeignKeyConstraintViolation
      else if c = "42P01" then .TableDoesNotExist
      else if e.name = "SQLiteError" then .sqlite (e.errno.getD 1) e.message
      else if c ≠ "" then .postgres c "ERROR" e.message
      else .GenericJs 0 := by
  simp only [convertDriverError, hE, if_true, hc, codeTruthy, Option.some.injEq,
    Option.getD_some, decide_eq_true_eq]


/-- C6: The error mapper is total and case-faithful: a code present in
the engine table yields the corresponding named kind; a table miss on
an error named SQLiteError yields the sqlite passthrough carrying the
extended code (errno, defaulted to 1) and message; a table miss with a
truthy code on any other Error yields the postgres passthrough
carrying the raw code and message; everything else yields the generic
fallback — and an unmapped truthy code is never sent to the generic
fallback. -/
theorem convertDriverError_classification :
    (∀ (e : NativeError) (k : MappedError), e.isError = true →
        (e.code.bind fun c => pgErrorTable.lookup c) = some k →
        convertDriverError e = k) ∧
    (∀ e : NativeError, e.isError = true →
        (e.code.bind fun c => pgErrorTable.lookup c) = none →
        e.name = "SQLiteError" →
        convertDriverError e = .sqlite (e.errno.getD 1) e.message) ∧
    (∀ (e : NativeError) (c : String), e.isError = true → e.code = some c →
        pgErrorTable.lookup c = none → e.name ≠ "SQLiteError" → c ≠ "" →
        convertDriverError e = .postgres c "ERROR" e.message) ∧
    (∀ e : NativeError, (e.isError = false ∨
        ((e.code.bind fun c => pgErrorTable.lookup c) = none ∧ e.name ≠ "SQLiteError" ∧
          codeTruthy e.code = false)) →
        convertDriverError e = .GenericJs 0) ∧
    (∀ (e : NativeError) (c : String), e.isError = true → e.code = some c → c ≠ "" →
        convertDriverError e ≠ .GenericJs 0) := by
  refine ⟨?_, ?_, ?_, ?_, ?_⟩
  · intro e k hE hlk
    cases hc : e.code with
    | none => rw [hc] at hlk; simp at hlk
    | some c =>
      rw [hc] at hlk
      simp only [Option.some_bind] at hlk
      rw [pgErrorTable_lookup] at hlk
      rw [convertDriverError_eval e c hE hc]
      split_ifs at hlk with h1 h2 h3 h4
      · simp [h1]
        exact Option.some.inj hlk
      · simp [h1, h2]
        exact Option.some.inj hlk
      · simp [h1, h2, h3]
        exact Option.some.inj hlk
      · simp [h1, h2, h3, h4]
        exact Option.some.inj hlk
  · intro e hE hlk hname
    cases hc : e.code with
    | none => simp [convertDriverError, hE, hc, hname, codeTruthy]
    | some c =>
      rw [hc] at hlk
      simp only [Option.some_bind] at hlk
      rw [pgErrorTable_lookup] at hlk
      rw [convertDriverError_eval e c hE hc]
      split_ifs at hlk with h1 h2 h3 h4
      simp [h1, h2, h3, h4, hname]
  · intro e c hE hc hlk hname hne
    rw [pgErrorTable_lookup] at hlk
    rw [convertDriverError_eval e c hE hc]
    split_ifs at hlk with h1 h2 h3 h4
    simp [h1, h2, h3, h4, hname, hne]
  · intro e h
    rcases h with hE | ⟨hlk, hname, hct⟩
    · simp [convertDriverError, hE]
    · cases hEt : e.isError with
      | false => simp [convertDriverError, hEt]
      | true =>
        cases hc : e.code with
        | none => simp [convertDriverError, hEt, hc, hname, codeTruthy]
        | some c =>
          rw [hc] at hlk hct
          simp only [Option.some_bind] at hlk
          rw [pgErrorTable_lookup] at hlk
          rw [convertDriverError_eval e c hEt hc]
          have hce : c = "" := by simpa [codeTruthy] using hct
          split_ifs at hlk with h1 h2 h3 h4
          simp [h1, h2, h3, h4, hname, hce]
  · intro e c hE hc hne hcontra
    rw [convertDriverError_eval e c hE hc] at hcontra
    split_ifs at hcontra

/-- Witness for C6: a native error with an unmapped truthy code maps to
the postgres passthrough carrying that code and message. -/
theorem convertDriverError_classification_witness :
    ({ isError := true, name := "Error", code := some "XX000", errno := none,
       message := "boom" } : NativeError).isError = true ∧
    ({ isError := true, name := "Error", code := some "XX000", errno := none,
       message := "boom" } : NativeError).code = some "XX000" ∧
    pgErrorTable.lookup "XX000" = none ∧
    ({ isError := true, name := "Error", code := some "XX000", errno := none,
       message := "boom" } : NativeError).name ≠ "SQLiteError" ∧
    "XX000" ≠ "" ∧
    convertDriverError
      { isError := true, name := "Error", code := some "XX000", errno := none,
        message := "boom" } =
      .postgres "XX000" "ERROR"
        ({ isError := true, name := "Error", code := some "XX000", errno := none,
           message := "boom" } : NativeError).message :=
  ⟨rfl, rfl, by decide, by decide, by decide,
    convertDriverError_classification.2.2.1
      { isError := true, name := "Error", code := some "XX000", errno := none,
        message := "boom" } "XX000" rfl rfl (by decide) (by decide) (by decide)⟩

/-- C7: Row mapping is case-faithful: null and undefined map to
logical null; a bigint maps to its decimal text (never a machine
integer); a date maps to its ISO-8601 text; a compound object in a
JSON-typed column maps to its serialized JSON text; every other
value/column-type pair passes through unchanged — and `mapRow` applies
exactly this per-value mapping to each value paired with the column
type at its index. -/
theorem mapRow_value_classification :
    (∀ t : Option Nat, mapRowValue .vNull t = .vNull ∧ mapRowValue .vUndefined t = .vNull) ∧
    (∀ (n : Int) (t : Option Nat), mapRowValue (.vBigInt n) t = .vString (toString n)) ∧
    (∀ (ms : Int) (t : Option Nat), mapRowValue (.vDate ms) t = .vString (isoOfMs ms)) ∧
    (∀ v : JSValue, isCompound v = true →
        mapRowValue v (some ColumnTypeEnum.Json) = .vString (jsonStr v)) ∧
    (∀ (v : JSValue) (t : Option Nat), isPassthroughCase v t = true → mapRowValue v t = v) ∧
    (∀ (row : List JSValue) (types : List Nat),
        (mapRow row types).length = row.length ∧
        ∀ i : Nat, i < row.length →
          (mapRow row types)[i]? = some (mapRowValue (row.getD i .vNull) types[i]?)) := by
  refine ⟨fun t => ⟨rfl, rfl⟩, fun n t => rfl, fun ms t => rfl, ?_, ?_, ?_⟩
  · intro v h
    cases v with
    | vBytes bs => simp [mapRowValue, jsTypeofObject]
    | vObject fs => simp [mapRowValue, jsTypeofObject]
    | vArray es => simp [mapRowValue, jsTypeofObject]
    | vNull => simp [isCompound] at h
    | vUndefined => simp [isCompound] at h
    | vBool b => simp [isCompound] at h
    | vNumber q => simp [isCompound] at h
    | vNaN => simp [isCompound] at h
    | vBigInt n => simp [isCompound] at h
    | vString str => simp [isCompound] at h
    | vDate ms => simp [isCompound] at h
  · intro v t h
    cases v with
    | vNull => simp [isPassthroughCase] at h
    | vUndefined => simp [isPassthroughCase] at h
    | vBigInt n => simp [isPassthroughCase] at h
    | vDate ms => simp [isPassthroughCase] at h
    | vBool b => simp [mapRowValue, jsTypeofObject]
    | vNumber q => simp [mapRowValue, jsTypeofObject]
    | vNaN => simp [mapRowValue, jsTypeofObject]
    | vString str => simp [mapRowValue, jsTypeofObject]
    | vBytes bs =>
      have h2 : ¬ t = some ColumnTypeEnum.Json := by
        simpa [isPassthroughCase, jsTypeofObject] using h
      simp [mapRowValue, jsTypeofObject, h2]
    | vObject fs =>
      have h2 : ¬ t = some ColumnTypeEnum.Json := by
        simpa [isPassthroughCase, jsTypeofObject] using h
      simp [mapRowValue, jsTypeofObject, h2]
    | vArray es =>
      have h2 : ¬ t = some ColumnTypeEnum.Json := by
        simpa [isPassthroughCase, jsTypeofObject] using h
      simp [mapRowValue, jsTypeofObject, h2]
  · intro row types
    refine ⟨by simp [mapRow], ?_⟩
    intro i hi
    unfold mapRow
    rw [List.getElem?_map, List.getElem?_range hi, Option.map_some']


/-- Any JS number value (including NaN) is passed through by `mapArg`. -/
theorem mapArg_fixed (flag : Bool) (o : Option Rat) (t : ArgType) :
    mapArg flag (jsNumOpt o) t = some (jsNumOpt o) := by
  cases o <;> rfl


/-- C8: Argument mapping is idempotent: whenever `mapArg` maps a value
without throwing, re-mapping the already-mapped value under the same
type hint is a no-op. -/
theorem mapArg_idempotent (flag : Bool) (v : JSValue) (t : ArgType) (w : JSValue)
    (h : mapArg flag v t = some w) : mapArg flag w t = some w := by
  cases v with
  | vNull =>
    simp only [mapArg, Option.some.injEq] at h
    subst h; rfl
  | vUndefined =>
    simp only [mapArg, Option.some.injEq] at h
    subst h; rfl
  | vString s =>
    cases hst : t.scalarType with
    | int =>
      simp only [mapArg, hst, Option.some.injEq] at h
      subst h
      unfold parseIntJS
      exact mapArg_fixed flag _ t
    | float =>
      simp only [mapArg, hst, Option.some.injEq] at h
      subst h
      unfold parseFloatJS
      exact mapArg_fixed flag _ t
    | bigint =>
      simp only [mapArg, hst] at h
      cases hb : bigIntOfString s with
      | none => rw [hb] at h; simp at h
      | some n =>
        rw [hb] at h
        simp only [Option.map_some', Option.some.injEq] at h
        subst h; rfl
    | bytes =>
      simp only [mapArg, hst, Option.some.injEq] at h
      subst h; rfl
    | string =>
      simp only [mapArg, hst, Option.some.injEq] at h
      subst h; simp [mapArg, hst]
    | decimal =>
      simp only [mapArg, hst, Option.some.injEq] at h
      subst h; simp [mapArg, hst]
    | boolean =>
      simp only [mapArg, hst, Option.some.injEq] at h
      subst h; simp [mapArg, hst]
    | enum =>
      simp only [mapArg, hst, Option.some.injEq] at h
      subst h; simp [mapArg, hst]
    | uuid =>
      simp only [mapArg, hst, Option.some.injEq] at h
      subst h; simp [mapArg, hst]
    | json =>
      simp only [mapArg, hst, Option.some.injEq] at h
      subst h; simp [mapArg, hst]
    | datetime =>
      simp only [mapArg, hst, Option.some.injEq] at h
      subst h; simp [mapArg, hst]
    | unknown =>
      simp only [mapArg, hst, Option.some.injEq] at h
      subst h; simp [mapArg, hst]
  | vBool b =>
    cases hf : flag with
    | true =>
      simp only [mapArg, hf, if_true, Option.some.injEq] at h
      subst h; rfl
    | false =>
      simp only [mapArg, hf, Bool.false_eq_true, if_false, Option.some.injEq] at h
      subst h
      simp [mapArg]
  | vNumber q =>
    simp only [mapArg, Option.some.injEq] at h
    subst h; rfl
  | vNaN =>
    simp only [mapArg, Option.some.injEq] at h
    subst h; rfl
  | vBigInt n =>
    simp only [mapArg, Option.some.injEq] at h
    subst h; rfl
  | vBytes bs =>
    simp only [mapArg, Option.some.injEq] at h
    subst h; rfl
  | vDate ms =>
    simp only [mapArg, Option.some.injEq] at h
    subst h; rfl
  | vObject fs =>
    simp only [mapArg, Option.some.injEq] at h
    subst h; rfl
  | vArray es =>
    simp only [mapArg, Option.some.injEq] at h
    subst h; rfl

/-- Witness for C7 at concrete values: a compound object in a JSON
column, a pass-through string in a text column, and the indexwise
`mapRow` equation. -/
theorem mapRow_value_classification_witness :
    isCompound (.vObject [("k", .vNumber 2)]) = true ∧
    mapRowValue (.vObject [("k", .vNumber 2)]) (some ColumnTypeEnum.Json) =
      .vString (jsonStr (.vObject [("k", .vNumber 2)])) ∧
    isPassthroughCase (.vString "hi") (some ColumnTypeEnum.Text) = true ∧
    mapRowValue (.vString "hi") (some ColumnTypeEnum.Text) = .vString "hi" ∧
    (0 : Nat) < ([JSValue.vBigInt 5] : List JSValue).length ∧
    (mapRow [JSValue.vBigInt 5] [ColumnTypeEnum.Int64])[0]? =
      some (mapRowValue (([JSValue.vBigInt 5] : List JSValue).getD 0 .vNull)
        ([ColumnTypeEnum.Int64] : List Nat)[0]?) :=
  ⟨rfl, mapRow_value_classification.2.2.2.1 _ rfl, rfl,
    mapRow_value_classification.2.2.2.2.1 _ _ rfl,
    by decide,
    (mapRow_value_classification.2.2.2.2.2 [JSValue.vBigInt 5] [ColumnTypeEnum.Int64]).2
      0 (by decide)⟩

/-- Witness for C8: mapping the string "42" as an int argument yields
a number, and re-mapping that number is a no-op. -/
theorem mapArg_idempotent_witness :
    mapArg false (.vString "42") { scalarType := .int, arity := .scalar } =
      some (parseIntJS "42") ∧
    mapArg false (parseIntJS "42") { scalarType := .int, arity := .scalar } =
      some (parseIntJS "42") :=
  ⟨rfl, mapArg_idempotent false (.vString "42") { scalarType := .int, arity := .scalar }
    (parseIntJS "42") rfl⟩

/-- C2: For any N >= 1 nested successful `startTransaction` calls on
one adapter followed by N terminal lifecycle calls in LIFO order, the
final depth is 0; the SQL issued is exactly one BEGIN statement (the
first call) followed by the savepoint statements `SAVEPOINT sp_2` ..
`SAVEPOINT sp_N` (the k-th call issuing `SAVEPOINT sp_k`), so exactly
one BEGIN and N-1 SAVEPOINTs were issued; and the lifecycle hooks
themselves issue no SQL (the log is unchanged by the terminal calls). -/
theorem nested_transaction_depth_invariant
    (isos : List (Option String)) (terminals : List (MyTransaction × Bool))
    (hN : 1 ≤ isos.length)
    (hvalid : ∀ iso ∈ isos, isoOk iso = true)
    (hterm : terminals.length = isos.length) :
    (runTerminals terminals (startSeq isos initialAdapterState)).transactionDepth = 0 ∧
    (runTerminals terminals (startSeq isos initialAdapterState)).clientLog =
      (startSeq isos initialAdapterState).clientLog ∧
    (startSeq isos initialAdapterState).clientLog =
      txStmtSql (isos.headD none) 1 :: savepointStmts (isos.length - 1) 2 ∧
    (startSeq isos initialAdapterState).clientLog.countP isBeginStmtB = 1 ∧
    (startSeq isos initialAdapterState).clientLog.countP isSavepointStmtB =
      isos.length - 1 ∧
    (∀ k : Nat, 2 ≤ k → k ≤ isos.length →
      (startSeq isos initialAdapterState).clientLog[k - 1]? =
        some ("SAVEPOINT sp_" ++ toString (k : Int))) := by
  obtain ⟨iso1, rest, rfl⟩ : ∃ a l, isos = a :: l := by
    cases isos with
    | nil => simp at hN
    | cons a l => exact ⟨a, l, rfl⟩
  have hS := startSeq_eq (iso1 :: rest) initialAdapterState hvalid
  have hlog : (startSeq (iso1 :: rest) initialAdapterState).clientLog =
      txStmtSql iso1 1 :: savepointStmts rest.length 2 := by
    rw [hS]
    show initialAdapterState.clientLog ++ expectedTxLog (iso1 :: rest)
      initialAdapterState.transactionDepth = _
    rw [show initialAdapterState.clientLog = [] from rfl,
      show initialAdapterState.transactionDepth = 0 from rfl, List.nil_append, expectedTxLog,
      show (0 : Int) + 1 = 1 from by norm_num, expectedTxLog_savepoints rest 1 (by norm_num),
      show (1 : Int) + 1 = 2 from by norm_num]
  refine ⟨?_, runTerminals_log _ _, ?_, ?_, ?_, ?_⟩
  · rw [runTerminals_depth, hS]
    show initialAdapterState.transactionDepth + ((iso1 :: rest).length : Int) -
      (terminals.length : Int) = 0
    rw [show initialAdapterState.transactionDepth = 0 from rfl, hterm]
    ring_nf
  · rw [hlog]
    simp
  · rw [hlog, List.countP_cons, savepointStmts_countP_begin,
      isBeginStmtB_txStmt1 iso1 (hvalid iso1 (List.mem_cons_self _ _))]
    simp
  · rw [hlog, List.countP_cons, savepointStmts_countP_savepoint,
      isSavepointStmtB_txStmt1 iso1 (hvalid iso1 (List.mem_cons_self _ _))]
    simp
  · intro k h2 hk
    rw [hlog]
    obtain ⟨m, rfl⟩ : ∃ m, k = m + 2 := ⟨k - 2, by omega⟩
    rw [show m + 2 - 1 = m + 1 from by omega, List.getElem?_cons_succ]
    have hm : m < rest.length := by
      rw [List.length_cons] at hk
      omega
    unfold savepointStmts
    rw [List.getElem?_map, List.getElem?_range hm, Option.map_some']
    congr 2
    push_cast
    ring_nf

/-- Witness for C2 with three nested starts and three LIFO terminal
calls (commit, rollback, commit). -/
theorem nested_transaction_depth_invariant_witness :
    1 ≤ ([none, none, none] : List (Option String)).length ∧
    (∀ iso ∈ ([none, none, none] : List (Option String)), isoOk iso = true) ∧
    ([(⟨⟨false⟩⟩, true), (⟨⟨false⟩⟩, false), (⟨⟨false⟩⟩, true)] :
        List (MyTransaction × Bool)).length =
      ([none, none, none] : List (Option String)).length ∧
    (runTerminals [(⟨⟨false⟩⟩, true), (⟨⟨false⟩⟩, false), (⟨⟨false⟩⟩, true)]
        (startSeq [none, none, none] initialAdapterState)).transactionDepth = 0 ∧
    (runTerminals [(⟨⟨false⟩⟩, true), (⟨⟨false⟩⟩, false), (⟨⟨false⟩⟩, true)]
        (startSeq [none, none, none] initialAdapterState)).clientLog =
      (startSeq [none, none, none] initialAdapterState).clientLog ∧
    (startSeq [none, none, none] initialAdapterState).clientLog =
      txStmtSql none 1 :: savepointStmts 2 2 ∧
    (startSeq [none, none, none] initialAdapterState).clientLog.countP isBeginStmtB = 1 ∧
    (startSeq [none, none, none] initialAdapterState).clientLog.countP isSavepointStmtB = 2 :=
  have h := nested_transaction_depth_invariant [none, none, none]
    [(⟨⟨false⟩⟩, true), (⟨⟨false⟩⟩, false), (⟨⟨false⟩⟩, true)]
    (by decide) (by decide) (by decide)
  ⟨by decide, by decide, by decide, h.1, h.2.1, h.2.2.1, h.2.2.2.1, h.2.2.2.2.1⟩
